import Mathlib

set_option autoImplicit false

/-!
Shallow embedding of `src/dashboard.py` (a Streamlit market-data dashboard)
and proofs about its acquisition routine `get_live_data`, its memoization
cache, and its presentation loop `main`.

Tables are modelled as a list of column labels plus a list of rows, each row
a list of optional cells (`none` models pandas `NaN`/missing). Python
exceptions are modelled with `Except String`; an `Except.error` escaping a
function models an uncaught exception. Streamlit message calls
(`st.success`, `st.error`, `st.info`) are collected in a message list.
-/

namespace Dashboard

/-- A concrete cell value: a string or a number. -/
inductive Value where
  | str : String → Value
  | num : Int → Value
deriving DecidableEq, Repr

/-- A pandas cell: `none` models `NaN`/missing. -/
abbrev Cell := Option Value

/-- A pandas `DataFrame`: ordered column labels and rows of cells. -/
structure DataFrame where
  columns : List String
  rows : List (List Cell)
deriving DecidableEq, Repr

/-- `pd.DataFrame()`: the empty frame with no rows and no columns. -/
def DataFrame.emptyDF : DataFrame := ⟨[], []⟩

/-- pandas `df.empty`: true when either axis has length zero. -/
def DataFrame.empty (df : DataFrame) : Bool :=
  df.rows.isEmpty || df.columns.isEmpty

/-- Whether a column label occurs among the given labels. -/
def hasColIn (cols : List String) (c : String) : Bool :=
  cols.contains c

/-- The cell of row `r` at the column labelled `c` (first occurrence),
missing cells and absent labels read as `none`. -/
def cellAt (cols : List String) (r : List Cell) (c : String) : Cell :=
  match cols.findIdx? (· == c) with
  | some i => r.getD i none
  | none => none

/-- pandas `df.dropna(subset=...)`: keep rows whose every `subset` cell is
populated; raise `KeyError` when a `subset` label is absent. -/
def dropna (df : DataFrame) (subset : List String) : Except String DataFrame :=
  if subset.all (hasColIn df.columns) then
    .ok ⟨df.columns,
         df.rows.filter (fun r => subset.all (fun c => (cellAt df.columns r c).isSome))⟩
  else
    .error "KeyError"

/-- pandas `df[cols]`: project every row to the labels `cols` in order;
raise `KeyError` when a label is absent. -/
def selectCols (df : DataFrame) (cols : List String) : Except String DataFrame :=
  if cols.all (hasColIn df.columns) then
    .ok ⟨cols, df.rows.map (fun r => cols.map (cellAt df.columns r))⟩
  else
    .error "KeyError"

/-- `display_columns` of `dashboard.py` line 48. -/
def displayColumns : List String :=
  ["Outrights", "Last", "Settle", "BidQty", "Bid", "Ask", "AskQty", "VWAP"]

/-- Lines 47-53 of `dashboard.py`: the post-processing applied to whichever
table was read, OUTSIDE every `try` block, so its exceptions propagate. -/
def postProcess (data : DataFrame) : Except String DataFrame :=
  match dropna data ["Outrights"] with
  | .ok cleaned => selectCols cleaned displayColumns
  | .error e => .error e

/-- One raw CSV file: its lines, each a list of textual fields. -/
structure CsvFile where
  rows : List (List String)
deriving DecidableEq, Repr

/-- How `pd.read_csv` interprets one textual field: empty fields become
`NaN`, integer-looking fields become numbers, the rest stay strings. -/
def parseField (s : String) : Cell :=
  if s = "" then none
  else
    match s.toInt? with
    | some n => some (.num n)
    | none => some (.str s)

/-- Parse one raw CSV line into a row of cells. -/
def parseLine (r : List String) : List Cell :=
  r.map parseField

/-- `pd.read_csv(path, header=1)` (line 39): skip the first line, take the
second line as the header, and parse the remaining lines as data rows;
a file too short to hold the header raises. -/
def readCsvHeader1 (f : CsvFile) : Except String DataFrame :=
  match f.rows with
  | _ :: hdr :: rest => .ok ⟨hdr, rest.map parseLine⟩
  | _ => .error "EmptyDataError"

/-- The state of the fallback CSV path on disk: absent, present but
unreadable (an OS-level read failure), or present with raw content. -/
inductive FileState where
  | missing : FileState
  | unreadable : FileState
  | present : CsvFile → FileState
deriving Repr

/-- The external world of one acquisition call: the outcome of the xlwings
live read (`.error` models the raised exception) and the fallback file. -/
structure Env where
  live : Except String DataFrame
  fallback : FileState

/-- A Streamlit message surfaced to the page. -/
inductive Msg where
  | success : String → Msg
  | error : String → Msg
  | info : String → Msg
deriving DecidableEq, Repr

/-- Whether a message is an `st.error` banner. -/
def Msg.isError : Msg → Bool
  | .error _ => true
  | _ => false

/-- `get_live_data` (lines 13-53): try the live xlwings read; on failure
surface an error and an info message and try the fallback CSV (returning
the empty frame, with an error message, when that is absent or fails);
then post-process the table read. The post-processing runs outside both
`try` blocks, so a failure there is returned as `.error` (an uncaught
exception); the message list holds the messages surfaced on the way. -/
def get_live_data (env : Env) : Except String DataFrame × List Msg :=
  match env.live with
  | .ok data =>
      (postProcess data,
       [Msg.success "Successfully fetched data from live Excel sheet via xlwings."])
  | .error e =>
      let fbMsgs := [Msg.error ("Failed to connect to Excel with xlwings: " ++ e),
                     Msg.info "Falling back to reading the static CSV snapshot"]
      match env.fallback with
      | .missing =>
          (.ok DataFrame.emptyDF, fbMsgs ++ [Msg.error "Fallback CSV file not found"])
      | .unreadable =>
          (.ok DataFrame.emptyDF, fbMsgs ++ [Msg.error "Failed to read fallback CSV"])
      | .present f =>
          match readCsvHeader1 f with
          | .error ce =>
              (.ok DataFrame.emptyDF,
               fbMsgs ++ [Msg.error ("Failed to read fallback CSV: " ++ ce)])
          | .ok data => (postProcess data, fbMsgs)

/-- The table `get_live_data` successfully reads from a source, when any:
the live table on live success, else the parsed fallback CSV. -/
def acquiredTable (env : Env) : Option DataFrame :=
  match env.live with
  | .ok df => some df
  | .error _ =>
      match env.fallback with
      | .present f =>
          match readCsvHeader1 f with
          | .ok df => some df
          | .error _ => none
      | _ => none

/-- Spec-side predicate: the row's instrument-identifier (`Outrights`)
field is populated (not `NaN`). -/
def outrightsPopulated (cols : List String) (r : List Cell) : Bool :=
  (cellAt cols r "Outrights").isSome

/-- Spec-side projection of one row to the eight display columns. -/
def projectRow (cols : List String) (r : List Cell) : List Cell :=
  displayColumns.map (cellAt cols r)

/-- The cache time-to-live of `@st.cache_data(ttl=2)` (line 12), in seconds. -/
def ttl : Nat := 2

/-- The `st.cache_data` store for `get_live_data`: at most one entry,
holding the time it was stored and the memoized return value. -/
structure CacheState where
  entry : Option (Nat × (Except String DataFrame × List Msg))

/-- One acquisition through the cache: the value returned, whether the
body of `get_live_data` actually ran (re-attempting the live source),
and the cache state afterwards. -/
structure AcqOutcome where
  result : Except String DataFrame × List Msg
  attemptedLive : Bool
  state : CacheState

/-- A cache miss: run `get_live_data`; Streamlit memoizes a normal return
but does not memoize a raised exception. -/
def computeFresh (env : Env) (now : Nat) : AcqOutcome :=
  let r := get_live_data env
  match r.1 with
  | .ok _ => ⟨r, true, ⟨some (now, r)⟩⟩
  | .error _ => ⟨r, true, ⟨none⟩⟩

/-- Calling the `@st.cache_data(ttl=2)`-decorated `get_live_data`: return
the stored value while the entry is younger than `ttl`, otherwise run the
body afresh. -/
def cachedGetLiveData (env : Env) (now : Nat) (cs : CacheState) : AcqOutcome :=
  match cs.entry with
  | some (t, v) => if now < t + ttl then ⟨v, false, cs⟩ else computeFresh env now
  | none => computeFresh env now

/-- The body of `if col1.button("Force Refresh from Excel")` (lines 67-69):
it only shows `st.balloons()`; the cache is left untouched. -/
def pressRefreshButton (cs : CacheState) : CacheState :=
  cs

/-- One render pass of `main` up to the acquisition call (lines 67-81):
run the button handler when the button was pressed, then call the cached
`get_live_data`. -/
def renderAcquire (env : Env) (now : Nat) (cs : CacheState) (pressed : Bool) :
    AcqOutcome :=
  cachedGetLiveData env now (if pressed then pressRefreshButton cs else cs)

/-- One element rendered on the page by the data-display section. -/
inductive RenderItem where
  | table : DataFrame → List (String × String) → RenderItem
  | caption : String → RenderItem
  | errorBanner : String → RenderItem
deriving DecidableEq, Repr

/-- The `column_config` dict of `st.dataframe` (lines 90-96): the
per-column number formats. -/
def columnConfig : List (String × String) :=
  [("Last", "%.3f"), ("Settle", "%.3f"), ("Bid", "%.3f"),
   ("Ask", "%.3f"), ("VWAP", "%.4f")]

/-- Lines 83-100 of `main`: when the acquired frame is non-empty, render
the formatted table and the last-updated caption; otherwise render the
error banner. -/
def renderDataSection (df : DataFrame) (nowStr : String) : List RenderItem :=
  if !df.empty then
    [RenderItem.table df columnConfig,
     RenderItem.caption ("Last updated: " ++ nowStr)]
  else
    [RenderItem.errorBanner
      "No data to display. Please check file paths and ensure your Excel file is open if using xlwings."]

/-- Whether a rendered page shows a data table. -/
def showsTable (items : List RenderItem) : Bool :=
  items.any (fun it => match it with | .table _ _ => true | _ => false)

/-- Whether a rendered page shows the last-updated caption. -/
def showsCaption (items : List RenderItem) : Bool :=
  items.any (fun it => match it with | .caption _ => true | _ => false)

/-- Whether a rendered page shows an error banner. -/
def showsErrorBanner (items : List RenderItem) : Bool :=
  items.any (fun it => match it with | .errorBanner _ => true | _ => false)

instance : DecidableEq (Except String DataFrame) := fun a b =>
  match a, b with
  | .ok x, .ok y =>
      if h : x = y then .isTrue (by rw [h])
      else .isFalse (fun hc => h (Except.ok.inj hc))
  | .error x, .error y =>
      if h : x = y then .isTrue (by rw [h])
      else .isFalse (fun hc => h (Except.error.inj hc))
  | .ok _, .error _ => .isFalse (fun hc => Except.noConfusion hc)
  | .error _, .ok _ => .isFalse (fun hc => Except.noConfusion hc)

/-! ### Concrete sample data used by witnesses and counterexamples -/

/-- A sample row with a populated `Outrights` cell. -/
def sampleRow1 : List Cell :=
  [some (.str "JAN"), some (.num 10), some (.num 11), some (.num 5),
   some (.num 9), some (.num 12), some (.num 6), some (.num 10)]

/-- A sample row with a missing (`NaN`) `Outrights` cell. -/
def sampleRow2 : List Cell :=
  [none, some (.num 1), some (.num 2), some (.num 3),
   some (.num 4), some (.num 5), some (.num 6), some (.num 7)]

/-- A sample live table holding one populated and one unpopulated row. -/
def sampleDF : DataFrame := ⟨displayColumns, [sampleRow1, sampleRow2]⟩

/-- A sample row whose `Outrights` cell holds the empty string: present,
hence not `NaN`. -/
def emptyStrRow : List Cell :=
  [some (.str ""), none, none, none, none, none, none, none]

/-- A sample live table whose single row has an empty-string identifier. -/
def emptyStrDF : DataFrame := ⟨displayColumns, [emptyStrRow]⟩

/-- A sample live table lacking the eight display columns. -/
def badDF : DataFrame := ⟨["Foo"], [[some (.str "x")]]⟩

/-- A cache state holding an entry stored at time 0 with a value distinct
from what a fresh acquisition would produce. -/
def staleCache : CacheState := ⟨some (0, (.ok DataFrame.emptyDF, []))⟩

/-- A sample raw fallback CSV file: its header line duplicated on the
first two lines, then one data line. -/
def sampleCsv : CsvFile :=
  ⟨[displayColumns, displayColumns,
    ["FEB", "20", "21", "7", "19", "22", "8", "20"]]⟩

/-! ### Shared helper lemmas -/

/-- When `get_live_data` successfully reads a table from one of its two
sources, its result is exactly the post-processing of that table. -/
theorem get_live_data_of_acquired (env : Env) (df : DataFrame)
    (h : acquiredTable env = some df) :
    (get_live_data env).1 = postProcess df := by
  obtain ⟨live, fb⟩ := env
  cases live with
  | ok d =>
    simp [acquiredTable] at h
    subst h
    rfl
  | error e =>
    cases fb with
    | missing => simp [acquiredTable] at h
    | unreadable => simp [acquiredTable] at h
    | present f =>
      cases hr : readCsvHeader1 f with
      | ok d =>
        simp [acquiredTable, hr] at h
        subst h
        simp [get_live_data, hr]
      | error ce => simp [acquiredTable, hr] at h

/-- When neither source yields a table, `get_live_data` returns the empty
frame normally (no exception escapes the read stage). -/
theorem get_live_data_of_none (env : Env)
    (h : acquiredTable env = none) :
    (get_live_data env).1 = .ok DataFrame.emptyDF := by
  obtain ⟨live, fb⟩ := env
  cases live with
  | ok d => simp [acquiredTable] at h
  | error e =>
    cases fb with
    | missing => rfl
    | unreadable => rfl
    | present f =>
      cases hr : readCsvHeader1 f with
      | ok d => simp [acquiredTable, hr] at h
      | error ce => simp [get_live_data, hr]

/-- On a table containing the eight display columns, the post-processing
keeps exactly the rows with a populated `Outrights` cell and projects each
to the eight display columns in order. -/
theorem postProcess_ok (df : DataFrame)
    (h : displayColumns.all (hasColIn df.columns) = true) :
    postProcess df = .ok ⟨displayColumns,
      (df.rows.filter (outrightsPopulated df.columns)).map (projectRow df.columns)⟩ := by
  have hs := List.all_eq_true.mp h
  have hO : hasColIn df.columns "Outrights" = true :=
    hs "Outrights" (by simp [displayColumns])
  have hpred : (fun r => List.all ["Outrights"]
      (fun c => (cellAt df.columns r c).isSome)) = outrightsPopulated df.columns := by
    funext r
    simp [outrightsPopulated]
  simp only [postProcess, dropna, selectCols, List.all_cons, List.all_nil,
    Bool.and_true, hO, if_true, hpred]
  simp only [h, if_true]
  rfl

/-! ### Claim theorems -/

/-- Claim C1: for every source table (live or fallback) that contains the
eight named columns, the acquisition result returned by `get_live_data`
contains exactly the rows of the source whose `Outrights` field is
populated, projected to exactly the eight columns `Outrights, Last,
Settle, BidQty, Bid, Ask, AskQty, VWAP` in that order. -/
theorem acquired_rows_filtered_and_projected (env : Env) (df : DataFrame)
    (hacq : acquiredTable env = some df)
    (h : displayColumns.all (hasColIn df.columns) = true) :
    (get_live_data env).1 = .ok ⟨displayColumns,
      (df.rows.filter (outrightsPopulated df.columns)).map (projectRow df.columns)⟩ := by
  rw [get_live_data_of_acquired env df hacq, postProcess_ok df h]

/-- Witness for C1 at a concrete live table with one populated and one
unpopulated row: only the populated row survives, unchanged. -/
theorem acquired_rows_filtered_and_projected_witness :
    (get_live_data ⟨.ok sampleDF, .missing⟩).1 = .ok ⟨displayColumns, [sampleRow1]⟩ := by
  have := acquired_rows_filtered_and_projected ⟨.ok sampleDF, .missing⟩ sampleDF rfl
    (by decide)
  rw [this]
  rfl

/-- Counterexample to claim C2 as stated: with a cache entry stored at
time 0 and a render at time 1 (inside the 2-second window) in which the
refresh button is pressed, `get_live_data` is not re-attempted and the
stale cached value is returned, even though a fresh acquisition would
return something different. -/
theorem refresh_button_counterexample :
    (renderAcquire ⟨.ok sampleDF, .missing⟩ 1 staleCache true).attemptedLive = false ∧
    (renderAcquire ⟨.ok sampleDF, .missing⟩ 1 staleCache true).result =
      (.ok DataFrame.emptyDF, []) ∧
    (get_live_data ⟨.ok sampleDF, .missing⟩).1 ≠ .ok DataFrame.emptyDF := by
  refine ⟨rfl, rfl, ?_⟩
  decide

/-- Claim C2 (amended): pressing the manual-refresh button does NOT
invalidate the cached acquisition result — its handler leaves the cache
untouched — so in every state in which the memoization window has not yet
expired, the acquisition call on the next render after the button press
returns the cached value without re-attempting the live source. -/
theorem refresh_button_does_not_invalidate_cache (env : Env) (cs : CacheState)
    (t now : Nat) (v : Except String DataFrame × List Msg)
    (hentry : cs.entry = some (t, v)) (hfresh : now < t + ttl) (pressed : Bool) :
    (renderAcquire env now cs pressed).result = v ∧
    (renderAcquire env now cs pressed).attemptedLive = false ∧
    (renderAcquire env now cs pressed).state.entry = some (t, v) := by
  cases pressed <;>
    simp [renderAcquire, pressRefreshButton, cachedGetLiveData, hentry, hfresh]

/-- Witness for the amended C2 at a concrete unexpired cache and a pressed
button. -/
theorem refresh_button_does_not_invalidate_cache_witness :
    (renderAcquire ⟨.error "down", .missing⟩ 1 staleCache true).result =
      (.ok DataFrame.emptyDF, []) ∧
    (renderAcquire ⟨.error "down", .missing⟩ 1 staleCache true).attemptedLive = false ∧
    (renderAcquire ⟨.error "down", .missing⟩ 1 staleCache true).state.entry =
      some (0, (.ok DataFrame.emptyDF, [])) :=
  refresh_button_does_not_invalidate_cache ⟨.error "down", .missing⟩ staleCache 0 1
    (.ok DataFrame.emptyDF, []) rfl (by decide) true

/-- Counterexample to claim C3 as stated: when the live read succeeds but
the table lacks the required columns, the cleaning step raises `KeyError`
and that failure escapes `get_live_data` uncaught (the result is an
escaping exception, not a degraded value). -/
theorem cleaning_failure_escapes_counterexample :
    (get_live_data ⟨.ok badDF, .missing⟩).1 = .error "KeyError" := rfl

/-- Claim C3 (amended): every failure raised while reading the sources is
caught inside `get_live_data` — a live-read failure is surfaced as an
error message, and when no source yields a table the function still
returns the empty frame normally — but failures arising after a source
read succeeds, during cleaning and column projection, are outside both
`try` blocks and escape `get_live_data` uncaught. -/
theorem read_failures_caught_cleaning_failures_escape (env : Env) :
    (∀ e, env.live = .error e → (get_live_data env).2.any Msg.isError = true) ∧
    (acquiredTable env = none → (get_live_data env).1 = .ok DataFrame.emptyDF) ∧
    (∀ df, acquiredTable env = some df → (get_live_data env).1 = postProcess df) := by
  refine ⟨?_, get_live_data_of_none env, fun df h => get_live_data_of_acquired env df h⟩
  intro e he
  obtain ⟨live, fb⟩ := env
  simp only at he
  subst he
  cases fb with
  | missing => simp [get_live_data, Msg.isError]
  | unreadable => simp [get_live_data, Msg.isError]
  | present f =>
    cases hr : readCsvHeader1 f with
    | ok d => simp [get_live_data, hr, Msg.isError]
    | error ce => simp [get_live_data, hr, Msg.isError]

/-- Witness for the amended C3 at a concrete failed live read with a
missing fallback file: an error is surfaced and the empty frame returned. -/
theorem read_failures_caught_witness :
    (get_live_data ⟨.error "down", .missing⟩).2.any Msg.isError = true ∧
    (get_live_data ⟨.error "down", .missing⟩).1 = .ok DataFrame.emptyDF :=
  ⟨(read_failures_caught_cleaning_failures_escape ⟨.error "down", .missing⟩).1 "down" rfl,
   (read_failures_caught_cleaning_failures_escape ⟨.error "down", .missing⟩).2.1 rfl⟩

/-- Claim C4: when the live source raises and the fallback file exists
with its header duplicated on the first two lines, the acquisition result
equals the fallback file's content read with its first row skipped, fed
through the same cleaning and projection (`postProcess`) as the live path. -/
theorem fallback_read_skips_first_row (e : String) (f : CsvFile)
    (hdr : List String) (rest : List (List String))
    (hf : f.rows = hdr :: hdr :: rest) :
    (get_live_data ⟨.error e, .present f⟩).1 = postProcess ⟨hdr, rest.map parseLine⟩ := by
  have hread : readCsvHeader1 f = .ok ⟨hdr, rest.map parseLine⟩ := by
    simp [readCsvHeader1, hf]
  simp [get_live_data, hread]

/-- Witness for C4 at a concrete fallback CSV with a duplicated header. -/
theorem fallback_read_skips_first_row_witness :
    (get_live_data ⟨.error "down", .present sampleCsv⟩).1 =
      postProcess ⟨displayColumns,
        [parseLine ["FEB", "20", "21", "7", "19", "22", "8", "20"]]⟩ :=
  fallback_read_skips_first_row "down" sampleCsv displayColumns
    [["FEB", "20", "21", "7", "19", "22", "8", "20"]] rfl

/-- Claim C5: when the live source fails and the fallback file is missing
or cannot be read, `get_live_data` returns the empty frame and an error
message is surfaced. -/
theorem missing_fallback_yields_empty_with_error (e : String) (fb : FileState)
    (h : fb = FileState.missing ∨ fb = FileState.unreadable ∨
         ∃ f ce, fb = FileState.present f ∧ readCsvHeader1 f = .error ce) :
    (get_live_data ⟨.error e, fb⟩).1 = .ok DataFrame.emptyDF ∧
    (get_live_data ⟨.error e, fb⟩).2.any Msg.isError = true := by
  rcases h with rfl | rfl | ⟨f, ce, rfl, hf⟩
  · exact ⟨rfl, by simp [get_live_data, Msg.isError]⟩
  · exact ⟨rfl, by simp [get_live_data, Msg.isError]⟩
  · exact ⟨by simp [get_live_data, hf], by simp [get_live_data, hf, Msg.isError]⟩

/-- Witness for C5 at a concrete failed live read and missing fallback. -/
theorem missing_fallback_yields_empty_with_error_witness :
    (get_live_data ⟨.error "down", FileState.missing⟩).1 = .ok DataFrame.emptyDF ∧
    (get_live_data ⟨.error "down", FileState.missing⟩).2.any Msg.isError = true :=
  missing_fallback_yields_empty_with_error "down" FileState.missing (Or.inl rfl)

/-- Claim C6: two acquisition calls against an unchanged environment, the
second made while the memoization window of the cache entry visible to it
has not expired, return identical results (idempotence within the TTL). -/
theorem acquisition_idempotent_within_ttl (env : Env) (cs : CacheState)
    (t1 t2 : Nat) (h1 : t1 ≤ t2) (h2 : t2 < t1 + ttl)
    (hwin : ∀ t v, cs.entry = some (t, v) → t2 < t + ttl) :
    (cachedGetLiveData env t2 (cachedGetLiveData env t1 cs).state).result =
      (cachedGetLiveData env t1 cs).result := by
  cases hcs : cs.entry with
  | none =>
    cases hr : (get_live_data env).1 with
    | ok d => simp [cachedGetLiveData, computeFresh, hcs, hr, h2]
    | error e => simp [cachedGetLiveData, computeFresh, hcs, hr]
  | some tv =>
    obtain ⟨t, v⟩ := tv
    have hh2 := hwin t v hcs
    have hh1 : t1 < t + ttl := lt_of_le_of_lt h1 hh2
    simp [cachedGetLiveData, hcs, hh1, hh2]

/-- Witness for C6 at a concrete environment, an empty cache, and calls at
times 0 and 1. -/
theorem acquisition_idempotent_within_ttl_witness :
    (cachedGetLiveData ⟨.error "down", .missing⟩ 1
        (cachedGetLiveData ⟨.error "down", .missing⟩ 0 ⟨none⟩).state).result =
      (cachedGetLiveData ⟨.error "down", .missing⟩ 0 ⟨none⟩).result :=
  acquisition_idempotent_within_ttl ⟨.error "down", .missing⟩ ⟨none⟩ 0 1
    (by decide) (by decide) (fun t v h => Option.noConfusion h)

/-- Claim C7: a render pass shows the data table together with the
last-updated caption exactly when the acquired frame is non-empty, and
shows the error banner (and no table) exactly when it is empty. -/
theorem render_table_iff_nonempty (df : DataFrame) (s : String) :
    (showsTable (renderDataSection df s) = true ∧
       showsCaption (renderDataSection df s) = true ↔ df.empty = false) ∧
    (showsErrorBanner (renderDataSection df s) = true ↔ df.empty = true) ∧
    showsTable (renderDataSection df s) = !df.empty := by
  cases h : df.empty <;>
    simp [renderDataSection, showsTable, showsCaption, showsErrorBanner, h]

/-- Claim C8: for every non-empty acquisition result, the rendered table
carries the fixed per-column formats: 3 decimal places for `Last`,
`Settle`, `Bid`, `Ask` and 4 decimal places for `VWAP`. -/
theorem table_number_formats (df : DataFrame) (s : String)
    (h : df.empty = false) :
    ∃ cfg, RenderItem.table df cfg ∈ renderDataSection df s ∧
      cfg.lookup "Last" = some "%.3f" ∧ cfg.lookup "Settle" = some "%.3f" ∧
      cfg.lookup "Bid" = some "%.3f" ∧ cfg.lookup "Ask" = some "%.3f" ∧
      cfg.lookup "VWAP" = some "%.4f" := by
  refine ⟨columnConfig, ?_, rfl, rfl, rfl, rfl, rfl⟩
  simp [renderDataSection, h]

/-- Witness for C8 at a concrete non-empty frame. -/
theorem table_number_formats_witness :
    ∃ cfg, RenderItem.table sampleDF cfg ∈ renderDataSection sampleDF "12:00:00" ∧
      cfg.lookup "Last" = some "%.3f" ∧ cfg.lookup "Settle" = some "%.3f" ∧
      cfg.lookup "Bid" = some "%.3f" ∧ cfg.lookup "Ask" = some "%.3f" ∧
      cfg.lookup "VWAP" = some "%.4f" := by
  exact table_number_formats sampleDF "12:00:00" (by decide)

/-- Claim C9: when acquisition degrades to the empty result the returned
frame has zero rows AND zero columns, whereas a successfully read source
whose every row was filtered out yields a frame that still carries the
eight-column output schema with zero rows. -/
theorem degraded_empty_has_no_schema (e : String) (fb : FileState)
    (hfb : fb = FileState.missing ∨ fb = FileState.unreadable)
    (df : DataFrame)
    (h : displayColumns.all (hasColIn df.columns) = true)
    (hnull : ∀ r ∈ df.rows, cellAt df.columns r "Outrights" = none)
    (fb2 : FileState) :
    (get_live_data ⟨.error e, fb⟩).1 = .ok ⟨[], []⟩ ∧
    (get_live_data ⟨.ok df, fb2⟩).1 = .ok ⟨displayColumns, []⟩ := by
  constructor
  · rcases hfb with rfl | rfl <;> rfl
  · rw [get_live_data_of_acquired ⟨.ok df, fb2⟩ df rfl, postProcess_ok df h]
    have hfil : df.rows.filter (outrightsPopulated df.columns) = [] := by
      rw [List.filter_eq_nil_iff]
      intro r hr
      simp [outrightsPopulated, hnull r hr]
    rw [hfil]
    rfl

/-- Witness for C9: a degraded run yields the schemaless empty frame,
while a live table whose single row lacks an identifier keeps the schema. -/
theorem degraded_empty_has_no_schema_witness :
    (get_live_data ⟨.error "down", FileState.missing⟩).1 = .ok ⟨[], []⟩ ∧
    (get_live_data ⟨.ok ⟨displayColumns, [sampleRow2]⟩, FileState.missing⟩).1 =
      .ok ⟨displayColumns, []⟩ := by
  exact degraded_empty_has_no_schema "down" FileState.missing (Or.inl rfl)
    ⟨displayColumns, [sampleRow2]⟩ (by decide)
    (by intro r hr; simp [sampleRow2] at hr; subst hr; decide) FileState.missing

/-- Claim C10: the cleaning step drops only rows whose `Outrights` cell is
null/missing — a row whose `Outrights` cell holds any present value
(including the empty string) is retained in the acquisition result. -/
theorem nonnull_outrights_row_retained (env : Env) (df : DataFrame)
    (hacq : acquiredTable env = some df)
    (h : displayColumns.all (hasColIn df.columns) = true)
    (r : List Cell) (hr : r ∈ df.rows) (v : Value)
    (hv : cellAt df.columns r "Outrights" = some v) :
    ∃ res, (get_live_data env).1 = .ok res ∧ projectRow df.columns r ∈ res.rows := by
  refine ⟨⟨displayColumns,
    (df.rows.filter (outrightsPopulated df.columns)).map (projectRow df.columns)⟩, ?_, ?_⟩
  · rw [get_live_data_of_acquired env df hacq, postProcess_ok df h]
  · exact List.mem_map_of_mem _
      (List.mem_filter.mpr ⟨hr, by simp [outrightsPopulated, hv]⟩)

/-- Witness for C10 at a concrete table whose single row holds the empty
string as its identifier: the row is retained. -/
theorem nonnull_outrights_row_retained_witness :
    ∃ res, (get_live_data ⟨.ok emptyStrDF, .missing⟩).1 = .ok res ∧
      projectRow displayColumns emptyStrRow ∈ res.rows := by
  exact nonnull_outrights_row_retained ⟨.ok emptyStrDF, .missing⟩ emptyStrDF rfl
    (by decide) emptyStrRow (by decide) (.str "") (by decide)

end Dashboard
